import Mathlib

/-!
Shallow embedding of the speech-capture and recognition core of the
voice assistant (src/voice_assistant/core/assistant.py and
src/voice_assistant/speech/stt/base_stt.py), together with theorems
settling the specification claims about it.

Timestamps, durations and energy ratios (Python floats) are modelled as
rationals.  Queue handoffs are modelled as explicit inputs and outputs of
per-iteration step functions; external collaborators (the Google / Sphinx
recognition backends, langdetect, the response model) are modelled as
oracle functions passed in as parameters.
-/

/- ------------------------------------------------------------------ -/
/- String helpers mirroring the Python operations used by the source. -/
/- ------------------------------------------------------------------ -/

/-- Structural helper for `py_strip`: drop leading whitespace
characters. -/
def drop_while_ws : List Char → List Char
  | [] => []
  | c :: cs => if c.isWhitespace then drop_while_ws cs else c :: cs

/-- Embedding of Python `text.strip()`: remove leading and trailing
whitespace. -/
def py_strip (s : String) : String :=
  String.mk (drop_while_ws (drop_while_ws s.data.reverse).reverse)

/-- Embedding of the Python test `not text.strip()`. -/
def py_strip_empty (s : String) : Bool :=
  py_strip s == ""

/-- Embedding of Python `lang.split('-')[0]` as used in
`stt_processor` (line 134 of assistant.py) to extract the primary
language code from a tag such as `en-US`. -/
def primary_lang (lang : String) : String :=
  (lang.splitOn "-").headD ""

/- ------------------------------------------------------------------ -/
/- Conversation history (assistant.py lines 242-279).                 -/
/- ------------------------------------------------------------------ -/

/-- One entry of `self.conversation_history`: role, text and the
`datetime.now()` timestamp (modelled in seconds). -/
structure Turn where
  role : String
  text : String
  timestamp : ℚ
  deriving DecidableEq, Repr

/-- Embedding of `VoiceAssistant.add_to_conversation_history`
(assistant.py lines 242-253): append the new entry, then, when the
length exceeds `max_history_items * 2`, keep only the last
`max_history_items * 2` entries (the Python slice
`history[-max_history_items*2:]`). -/
def add_to_conversation_history (max_history_items : Nat) (history : List Turn)
    (t : Turn) : List Turn :=
  if max_history_items * 2 < (history ++ [t]).length then
    (history ++ [t]).drop ((history ++ [t]).length - max_history_items * 2)
  else
    history ++ [t]

/-- Embedding of the filtering loop of `get_conversation_context`
(assistant.py lines 264-269): keep the entries whose age in minutes,
`(now - timestamp) / 60`, is at most the context window. -/
def collect_recent (now window : ℚ) : List Turn → List Turn
  | [] => []
  | it :: rest =>
    if (now - it.timestamp) / 60 ≤ window then
      it :: collect_recent now window rest
    else
      collect_recent now window rest

/-- Embedding of the formatting loop of `get_conversation_context`
(assistant.py lines 272-277): each kept entry becomes a (role, content)
pair. -/
def format_context : List Turn → List (String × String)
  | [] => []
  | it :: rest => (it.role, it.text) :: format_context rest

/-- Embedding of `VoiceAssistant.get_conversation_context`
(assistant.py lines 255-279), with the early return on an empty
history. -/
def get_conversation_context (context_window_minutes now : ℚ)
    (history : List Turn) : List (String × String) :=
  if history.isEmpty then []
  else format_context (collect_recent now context_window_minutes history)

/- ------------------------------------------------------------------ -/
/- Keyboard input and STT result consumption                          -/
/- (assistant.py lines 113-152 and 393-446).                          -/
/- ------------------------------------------------------------------ -/

/-- Observable effect of one iteration of `keyboard_input_thread` on a
typed line: what is placed on the text queue, the silence-detection
latch afterwards, and whether the warm-up timer is reset.  The thread
never touches the conversation history (history entries are only added
by `process_text_queue`). -/
structure KeyboardEffect where
  queued : Option String
  enabled_after : Bool
  start_time_reset : Bool
  deriving DecidableEq, Repr

/-- Embedding of the body of `VoiceAssistant.keyboard_input_thread`
(assistant.py lines 403-432): a line that strips to the empty string is
skipped (`continue`) before any queueing; otherwise the raw line is
queued, the silence-detection latch is set and the warm-up timer is
reset. -/
def keyboard_input_step (enabled : Bool) (line : String) : KeyboardEffect :=
  if py_strip_empty line then
    { queued := none, enabled_after := enabled, start_time_reset := false }
  else
    { queued := some line, enabled_after := true, start_time_reset := true }

/-- A message taken from the STT result queue: recognized text and its
language tag. -/
structure SttMsg where
  text : String
  lang : String
  deriving DecidableEq, Repr

/-- Observable effect of one iteration of `stt_processor` on a dequeued
result: the text queued for processing, the updated
`current_language`, and the silence-detection latch afterwards. -/
structure SttProcessEffect where
  queued : Option String
  current_language_after : String
  enabled_after : Bool
  deriving DecidableEq, Repr

/-- Embedding of the body of `VoiceAssistant.stt_processor`
(assistant.py lines 117-148): a result whose text strips to the empty
string is discarded; otherwise the raw text is queued, the current
language becomes the primary code of the result language, and the
silence-detection latch is set. -/
def stt_processor_step (current_language : String) (enabled : Bool)
    (r : Option SttMsg) : SttProcessEffect :=
  match r with
  | none =>
    { queued := none, current_language_after := current_language,
      enabled_after := enabled }
  | some m =>
    if py_strip_empty m.text then
      { queued := none, current_language_after := current_language,
        enabled_after := enabled }
    else
      { queued := some m.text, current_language_after := primary_lang m.lang,
        enabled_after := true }

/- ------------------------------------------------------------------ -/
/- Speech state and the silence monitor                               -/
/- (base_stt.py lines 666-677, assistant.py lines 67-111).            -/
/- ------------------------------------------------------------------ -/

/-- The fields of `BaseSTT` that `get_speech_state` reads:
`silence_ratio`, the configured `silence_threshold` ratio, and
`last_speech_time`. -/
structure SttSpeechFields where
  silence_ratio : ℚ
  silence_threshold : ℚ
  last_speech_time : ℚ
  deriving DecidableEq, Repr

/-- The dictionary returned by `BaseSTT.get_speech_state`. -/
structure SpeechState where
  silence_ratio : ℚ
  is_silent : Bool
  last_speech_time : ℚ
  silence_duration : ℚ
  deriving DecidableEq, Repr

/-- Embedding of `BaseSTT.get_speech_state` (base_stt.py lines 666-677):
`is_silent` holds when the silence ratio exceeds the configured ratio
threshold, and `silence_duration` is the time since the last speech. -/
def get_speech_state (st : SttSpeechFields) (now : ℚ) : SpeechState :=
  { silence_ratio := st.silence_ratio
    is_silent := decide (st.silence_threshold < st.silence_ratio)
    last_speech_time := st.last_speech_time
    silence_duration := now - st.last_speech_time }

/-- The `VoiceAssistant` fields read and written by `silence_monitor`. -/
structure AssistantState where
  silence_detection_enabled : Bool
  is_listening : Bool
  is_speaking : Bool
  start_time : ℚ
  warm_up_period : ℚ
  deriving DecidableEq, Repr

/-- Embedding of the warm-up section of one `silence_monitor`
iteration (assistant.py lines 74-87).  The first branch
(`in_warm_up and not silence_detection_enabled`) only prints a status
message; the second branch (`in_warm_up and
elapsed_time >= warm_up_period - 1`) sets the latch. -/
def silence_monitor_enable (st : AssistantState) (now : ℚ) : Bool :=
  if now - st.start_time < st.warm_up_period ∧
      st.silence_detection_enabled = false then
    st.silence_detection_enabled
  else if now - st.start_time < st.warm_up_period ∧
      st.warm_up_period - 1 ≤ now - st.start_time then
    true
  else
    st.silence_detection_enabled

/-- Embedding of the pause test of `silence_monitor` (assistant.py
lines 96-98): the local `silence_threshold` variable of the monitor is
3.0 seconds (line 70), so listening pauses when the silence duration
exceeds 3 seconds, the state is silent, and the assistant is not
speaking. -/
def pause_condition (sp : SpeechState) (is_speaking : Bool) : Prop :=
  3 < sp.silence_duration ∧ sp.is_silent = true ∧ is_speaking = false

instance (sp : SpeechState) (b : Bool) : Decidable (pause_condition sp b) :=
  inferInstanceAs (Decidable (3 < sp.silence_duration ∧ sp.is_silent = true ∧ b = false))

/-- Embedding of one full iteration of `VoiceAssistant.silence_monitor`
(assistant.py lines 72-111): first the warm-up/enable section, then,
only when silence detection is enabled, either the pause test (while
listening) or the resume test `silence_ratio < 0.7` (while paused). -/
def silence_monitor_step (st : AssistantState) (sp : SpeechState) (now : ℚ) :
    AssistantState :=
  { st with
    silence_detection_enabled := silence_monitor_enable st now
    is_listening :=
      if silence_monitor_enable st now then
        if st.is_listening then
          if pause_condition sp st.is_speaking then false else st.is_listening
        else
          if sp.silence_ratio < 7 / 10 then true else st.is_listening
      else
        st.is_listening }

/- ------------------------------------------------------------------ -/
/- Recognition worker with language fallback                          -/
/- (base_stt.py lines 256-342, settings.py SUPPORTED_LANGUAGES).      -/
/- ------------------------------------------------------------------ -/

/-- Outcome of one call to the recognition backend
(`recognizer.recognize_google(audio, language=lang)`): a transcript,
`sr.UnknownValueError`, or `sr.RequestError`. -/
inductive RecOutcome where
  | ok (text : String)
  | unknownValue
  | requestError
  deriving DecidableEq, Repr

/-- Embedding of `SUPPORTED_LANGUAGES` from settings.py: the langdetect
code to Google language tag table. -/
def SUPPORTED_LANGUAGES : List (String × String) :=
  [("en", "en-US"), ("fr", "fr-FR"), ("es", "es-ES"), ("de", "de-DE"),
   ("it", "it-IT"), ("ar", "ar-AR"), ("zh", "zh-CN"), ("ja", "ja-JP")]

/-- Embedding of `self.supported_languages =
list(SUPPORTED_LANGUAGES.values())` (base_stt.py line 87). -/
def supported_languages : List String :=
  SUPPORTED_LANGUAGES.map (fun p => p.2)

/-- Embedding of Python `lang_map.get(code, default)`. -/
def lang_map_get (code default : String) : String :=
  match SUPPORTED_LANGUAGES.find? (fun p => p.1 == code) with
  | some p => p.2
  | none => default

/-- Embedding of `BaseSTT.detect_language_from_text` (base_stt.py lines
256-272).  The external `langdetect.detect` call is an oracle
`detect : String → Option String` returning the raw language code, with
`none` standing for a detection exception; on failure or an unmapped
code the previous language is kept. -/
def detect_language_from_text (detect : String → Option String)
    (last_detected_language text : String) : String :=
  match detect text with
  | some code => lang_map_get code last_detected_language
  | none => last_detected_language

/-- A recognition result placed on the result queue by
`recognize_worker`: the transcript and the language tag stored under
the `lang` key. -/
structure Utterance where
  text : String
  lang : String
  deriving DecidableEq, Repr

/-- Embedding of the fallback loop of `recognize_worker` (base_stt.py
lines 313-339): scan the supported languages, skipping the language
already tried; an attempt that returns a non-empty transcript ends the
loop with the emitted pair (text, language detected from the text); an
`UnknownValueError` or an empty transcript moves on to the next
language; a `RequestError` escapes the loop (it is caught at line 340)
and nothing is emitted. -/
def fallback_scan (backend : String → RecOutcome)
    (detect : String → Option String) (last_detected_language : String) :
    List String → Option Utterance
  | [] => none
  | lang :: rest =>
    if lang = last_detected_language then
      fallback_scan backend detect last_detected_language rest
    else
      match backend lang with
      | .ok text =>
        if py_strip text ≠ "" then
          some ⟨text, detect_language_from_text detect last_detected_language text⟩
        else
          fallback_scan backend detect last_detected_language rest
      | .unknownValue => fallback_scan backend detect last_detected_language rest
      | .requestError => none

/-- Embedding of the per-segment body of `BaseSTT.recognize_worker`
(base_stt.py lines 279-342).  The backend is an oracle from language
tag to outcome for the fixed dequeued audio segment.  Returned value:
the result placed on the result queue (if any) and the
`last_detected_language` afterwards.

First the hinted language is tried.  On a non-empty transcript the
text language is detected; if it differs, recognition is retried with
the detected language (a bare `except: pass` keeps the original text
and hint when the retry fails) and the result is emitted with the
current `last_detected_language`.  On `UnknownValueError` the fallback
scan over `supported_languages` runs.  On `RequestError`, or on an
empty hinted transcript, nothing is emitted. -/
def recognize_worker_step (backend : String → RecOutcome)
    (detect : String → Option String) (last_detected_language : String) :
    Option Utterance × String :=
  match backend last_detected_language with
  | .ok text =>
    if py_strip text ≠ "" then
      let dl := detect_language_from_text detect last_detected_language text
      if dl ≠ last_detected_language then
        match backend dl with
        | .ok text2 => (some ⟨text2, dl⟩, dl)
        | _ => (some ⟨text, last_detected_language⟩, last_detected_language)
      else
        (some ⟨text, last_detected_language⟩, last_detected_language)
    else
      (none, last_detected_language)
  | .unknownValue =>
    match fallback_scan backend detect last_detected_language supported_languages with
    | some u => (some u, u.lang)
    | none => (none, last_detected_language)
  | .requestError => (none, last_detected_language)

/- ------------------------------------------------------------------ -/
/- Microphone selection (base_stt.py lines 549-594).                  -/
/- ------------------------------------------------------------------ -/

/-- Prefix test on lists of characters. -/
def chars_pre : List Char → List Char → Bool
  | [], _ => true
  | _ :: _, [] => false
  | a :: as, b :: bs => a == b && chars_pre as bs

/-- Substring test on lists of characters: `chars_sub need hay` holds
when `need` occurs contiguously inside `hay`. -/
def chars_sub (need : List Char) : List Char → Bool
  | [] => need.isEmpty
  | b :: bs => chars_pre need (b :: bs) || chars_sub need bs

/-- Embedding of the Python test `keyword.lower() in name.lower()`:
both strings are lowercased character by character and the keyword is
searched as a contiguous substring. -/
def py_in (keyword name : String) : Bool :=
  chars_sub (keyword.data.map Char.toLower) (name.data.map Char.toLower)

/-- The hard-coded device indices tried first by
`find_best_microphone` (base_stt.py line 556). -/
def specific_indices : List Nat := [7, 14, 24, 25, 28]

/-- The keyword list of the second stage of `find_best_microphone`
(base_stt.py lines 563-568). -/
def priority_keywords : List String :=
  ["headset mic", "headset microphone", "mic input", "microphone input",
   "microphone (", "mic (", "input"]

/-- The output-device keyword list of the third stage of
`find_best_microphone` (base_stt.py line 578). -/
def avoid_keywords : List String :=
  ["output", "speaker", "playback", "sound mapper - output"]

/-- The name-based stages of `BaseSTT.find_best_microphone`
(base_stt.py lines 561-591): first keyword-priority match, then the
first device whose name matches no output keyword, then index 0 when
any device exists, else no device. -/
def rank_by_name (mic_names : List String) : Option Nat :=
  match priority_keywords.findSome?
      (fun kw => mic_names.findIdx? (fun name => py_in kw name)) with
  | some i => some i
  | none =>
    match mic_names.findIdx?
        (fun name => !(avoid_keywords.any (fun kw => py_in kw name))) with
    | some i => some i
    | none => if mic_names.isEmpty then none else some 0

/-- Embedding of `BaseSTT.find_best_microphone` (base_stt.py lines
549-594): the first loop returns the first hard-coded index that is in
range of the device list, regardless of that device name; only when no
hard-coded index is in range do the name-based stages run. -/
def find_best_microphone (mic_names : List String) : Option Nat :=
  match specific_indices.find? (fun i => decide (i < mic_names.length)) with
  | some i => some i
  | none => rank_by_name mic_names

/- ------------------------------------------------------------------ -/
/- Active listening loop error handling (base_stt.py lines 363-547).  -/
/- ------------------------------------------------------------------ -/

/-- What happens during one iteration of `active_listening_loop`:
either `recognizer.listen` captures audio (`listenOk`, with a flag
recording whether every recognition attempt on it failed — including a
backend request failure), times out (`sr.WaitTimeoutError`), raises
some other listening error, the microphone source raises, or the outer
loop body raises. -/
inductive LoopEvent where
  | listenOk (backend_failed : Bool)
  | listenTimeout
  | listenErr
  | sourceErr
  | loopErr
  deriving DecidableEq, Repr

/-- The events that increment `consecutive_errors` in
`active_listening_loop` (base_stt.py lines 507, 510, 517): listening
errors, microphone source errors and loop-body errors.  Recognition
and backend errors (lines 474-484, 499-502) are caught without
touching the counter. -/
def is_capture_error : LoopEvent → Bool
  | .listenErr => true
  | .sourceErr => true
  | .loopErr => true
  | _ => false

/-- Value of `consecutive_errors` after the body of one iteration of
`active_listening_loop`: a successful `listen` resets it to 0
(base_stt.py line 463) before any recognition attempt, a timeout
leaves it unchanged, and the three capture-error paths increment
it. -/
def next_consecutive_errors (n : Nat) : LoopEvent → Nat
  | .listenOk _ => 0
  | .listenTimeout => n
  | .listenErr => n + 1
  | .sourceErr => n + 1
  | .loopErr => n + 1

/-- One iteration of `active_listening_loop` (base_stt.py lines
410-547), restricted to its error/reset bookkeeping.  After the body,
when `consecutive_errors` has reached `max_consecutive_errors = 3`, the
recognizer and microphone are recreated and the counter is cleared
(lines 522-544); the returned flag records whether that reset ran. -/
def active_listening_iter (n : Nat) (e : LoopEvent) : Nat × Bool :=
  let m := next_consecutive_errors n e
  if 3 ≤ m then (0, true) else (m, false)

/-- Run of `active_listening_loop` over a sequence of iteration events,
returning the final `consecutive_errors` and the number of resets
performed.  The run consumes every event: no event — in particular no
backend request failure — stops the loop. -/
def active_listening_run (n : Nat) : List LoopEvent → Nat × Nat
  | [] => (n, 0)
  | e :: es =>
    let step := active_listening_iter n e
    let rest := active_listening_run step.1 es
    (rest.1, (if step.2 then 1 else 0) + rest.2)

/- ------------------------------------------------------------------ -/
/- Text queue processing (assistant.py lines 178-240).                -/
/- ------------------------------------------------------------------ -/

/-- Outcome of `language_model.generate_response`: `ok (some r)` for a
truthy reply, `ok none` for a falsy one (`None` or the empty string),
and `err` for a raised exception. -/
inductive RespOutcome where
  | ok (r : Option String)
  | err
  deriving DecidableEq, Repr

/-- The fixed fallback spoken when the model returns no response
(assistant.py line 219). -/
def fallback_no_response : String := "I\x27m not sure how to respond to that."

/-- The fixed fallback spoken when response generation raises
(assistant.py line 228). -/
def fallback_error : String := "I\x27m having trouble processing that right now."

/-- Observable effect of the general-conversation branch of
`process_text_queue` on one queued text: what is printed and spoken,
and the two history entries appended. -/
structure TextProcessEffect where
  spoken : String
  history_user : String
  history_assistant : String
  deriving DecidableEq, Repr

/-- Embedding of the general-conversation branch of
`VoiceAssistant.process_text_queue` (assistant.py lines 200-236): a
truthy response is spoken as is; a falsy response is replaced by
`fallback_no_response`; an exception is contained and replaced by
`fallback_error`.  In every case a user and an assistant history entry
are appended and the loop continues. -/
def process_text_step (text : String) (resp : RespOutcome) : TextProcessEffect :=
  match resp with
  | .ok (some r) => { spoken := r, history_user := text, history_assistant := r }
  | .ok none =>
    { spoken := fallback_no_response, history_user := text,
      history_assistant := fallback_no_response }
  | .err =>
    { spoken := fallback_error, history_user := text,
      history_assistant := fallback_error }

/-- Run of `process_text_queue` over a list of queued texts with a
response oracle: one spoken utterance per queued text, errors
contained. -/
def process_texts (resp : String → RespOutcome) (texts : List String) :
    List String :=
  texts.map (fun t => (process_text_step t (resp t)).spoken)

/-- Composition of one captured segment with the text-queue loop: the
utterances spoken for the segment.  When `recognize_worker_step` emits
no transcription, nothing reaches the text queue and nothing is
spoken. -/
def stt_pipeline_spoken (backend : String → RecOutcome)
    (detect : String → Option String) (last_detected_language : String)
    (resp : String → RespOutcome) : List String :=
  match (recognize_worker_step backend detect last_detected_language).1 with
  | some u => [(process_text_step u.text (resp u.text)).spoken]
  | none => []

/- ------------------------------------------------------------------ -/
/- Partial result display                                             -/
/- (assistant.py lines 281-303, base_stt.py lines 344-361).           -/
/- ------------------------------------------------------------------ -/

/-- The display state read by `partial_text_monitor`:
`last_full_result` and the `showing_partial` flag. -/
structure PartialDisplayState where
  last_full_result : String
  showing_flag : Bool
  deriving DecidableEq, Repr

/-- Embedding of the body of `VoiceAssistant.partial_text_monitor`
(assistant.py lines 285-298): the dequeued text is stripped and shown
exactly when it is non-empty and differs from `last_full_result`; the
monitor keeps no record of the previously shown partial text. -/
def partial_text_monitor_step (st : PartialDisplayState) (raw : String) :
    Option String × PartialDisplayState :=
  let p := py_strip raw
  if p ≠ "" ∧ p ≠ st.last_full_result then
    (some p, { st with showing_flag := true })
  else
    (none, st)

/-- Run of `partial_text_monitor` over a sequence of dequeued partial
texts, collecting the displayed strings. -/
def partial_text_monitor_run (st : PartialDisplayState) :
    List String → List String
  | [] => []
  | r :: rs =>
    let step := partial_text_monitor_step st r
    match step.1 with
    | some s => s :: partial_text_monitor_run step.2 rs
    | none => partial_text_monitor_run step.2 rs

/-- Embedding of the body of `BaseSTT.partial_result_processor`
(base_stt.py lines 349-357): a dequeued partial text is printed exactly
when it differs from the previously printed one (`last_partial`); no
emptiness test and no comparison with full results is made. -/
def partial_result_processor_step (last_printed text : String) :
    Option String × String :=
  if text ≠ last_printed then (some text, text) else (none, last_printed)

/- ------------------------------------------------------------------ -/
/- Theorems.                                                          -/
/- ------------------------------------------------------------------ -/

/-- C8 counterexample: for a captured segment that cannot be
transcribed (every language attempt raises an unrecognized-speech
error), the recognition worker emits nothing, so nothing reaches the
text queue and nothing at all — in particular no apology utterance —
is spoken: the pipeline output is empty, contradicting the claim that
an apology is produced whenever a transcription cannot be produced. -/
theorem failed_transcription_is_silent :
    stt_pipeline_spoken (fun _ => RecOutcome.unknownValue) (fun _ => none)
      "en-US" (fun _ => RespOutcome.ok (some "hi")) = [] ∧
    (recognize_worker_step (fun _ => RecOutcome.unknownValue) (fun _ => none)
      "en-US").1 = none := by
  refine ⟨rfl, rfl⟩

/-- C8 amended: in the text-queue loop a falsy model response is
replaced by the fixed no-response apology and a raised exception by the
fixed error apology, both recorded in the history, and no single error
terminates the loop (every queued text yields exactly one spoken
utterance); a captured segment whose transcription fails, however, is
dropped silently by the recognition worker without any apology. -/
theorem response_fallback_policy (text : String) (resp : RespOutcome)
    (resp_oracle : String → RespOutcome) (texts : List String) :
    (resp = RespOutcome.ok none →
      (process_text_step text resp).spoken = fallback_no_response ∧
        (process_text_step text resp).history_assistant = fallback_no_response) ∧
    (resp = RespOutcome.err →
      (process_text_step text resp).spoken = fallback_error ∧
        (process_text_step text resp).history_assistant = fallback_error) ∧
    (∀ r, resp = RespOutcome.ok (some r) →
      (process_text_step text resp).spoken = r) ∧
    (process_text_step text resp).history_user = text ∧
    (process_texts resp_oracle texts).length = texts.length := by
  refine ⟨?_, ?_, ?_, ?_, ?_⟩
  · rintro rfl; exact ⟨rfl, rfl⟩
  · rintro rfl; exact ⟨rfl, rfl⟩
  · rintro r rfl; rfl
  · cases resp with
    | ok r => cases r with
      | some s => rfl
      | none => rfl
    | err => rfl
  · unfold process_texts
    rw [List.length_map]

/-- Witness for the amended C8: a raised model exception yields the
fixed error apology. -/
theorem response_fallback_policy_witness :
    (process_text_step "hello" RespOutcome.err).spoken = fallback_error ∧
    (process_text_step "hello" RespOutcome.err).history_assistant =
      fallback_error :=
  (response_fallback_policy "hello" RespOutcome.err
    (fun _ => RespOutcome.err) []).2.1 rfl

/-- C9 counterexample: with no previous full result, ingesting the same
non-empty partial text twice in a row makes `partial_text_monitor`
display it twice — it only compares against `last_full_result`, not
against the previously displayed partial — contradicting the claim
that the same partial twice in a row produces at most one display. -/
theorem duplicate_partial_redisplayed :
    partial_text_monitor_run ⟨"", false⟩ ["hello", "hello"] =
      ["hello", "hello"] := by
  rfl

/-- C9 amended: the assistant-side monitor displays a stripped partial
text exactly when it is non-empty and differs from the last full
result (so identical consecutive partials are re-displayed by it),
while the separate STT-side printer `partial_result_processor` prints
a partial exactly when it differs from the previously printed one
(and compares against neither emptiness nor full results). -/
theorem partial_display_policy (st : PartialDisplayState) (raw : String)
    (last_printed text : String) :
    ((partial_text_monitor_step st raw).1.isSome = true ↔
      (py_strip raw ≠ "" ∧ py_strip raw ≠ st.last_full_result)) ∧
    ((partial_result_processor_step last_printed text).1.isSome = true ↔
      text ≠ last_printed) := by
  constructor
  · unfold partial_text_monitor_step
    by_cases h : py_strip raw ≠ "" ∧ py_strip raw ≠ st.last_full_result
    · rw [if_pos h]
      simpa using h
    · rw [if_neg h]
      simpa using h
  · unfold partial_result_processor_step
    by_cases h : text ≠ last_printed
    · rw [if_pos h]
      simpa using h
    · rw [if_neg h]
      simpa using h

/-- Projection of the latch after one monitor iteration. -/
lemma silence_monitor_step_enabled (st : AssistantState) (sp : SpeechState)
    (now : ℚ) :
    (silence_monitor_step st sp now).silence_detection_enabled =
      silence_monitor_enable st now := rfl

/-- Projection of the listening flag after one monitor iteration. -/
lemma silence_monitor_step_listening (st : AssistantState) (sp : SpeechState)
    (now : ℚ) :
    (silence_monitor_step st sp now).is_listening =
      (if silence_monitor_enable st now then
        if st.is_listening then
          if pause_condition sp st.is_speaking then false else st.is_listening
        else
          if sp.silence_ratio < 7 / 10 then true else st.is_listening
      else
        st.is_listening) := rfl

/-- C1: while listening, one iteration of the silence monitor switches
`is_listening` to false only when the monitor silence-duration
threshold (3 seconds), the silence-ratio test `is_silent` of
`get_speech_state`, and `not is_speaking` all hold; if any of the three
fails, `is_listening` stays true. -/
theorem silence_monitor_pause_guard (st : AssistantState)
    (stt : SttSpeechFields) (now : ℚ) (hl : st.is_listening = true) :
    ((silence_monitor_step st (get_speech_state stt now) now).is_listening = false →
      3 < (get_speech_state stt now).silence_duration ∧
        (get_speech_state stt now).is_silent = true ∧ st.is_speaking = false) ∧
    ((¬ 3 < (get_speech_state stt now).silence_duration ∨
        (get_speech_state stt now).is_silent = false ∨ st.is_speaking = true) →
      (silence_monitor_step st (get_speech_state stt now) now).is_listening = true) := by
  set sp := get_speech_state stt now with hsp
  rw [silence_monitor_step_listening, hl]
  by_cases hen : silence_monitor_enable st now = true
  · rw [if_pos hen, if_pos rfl]
    by_cases hp : pause_condition sp st.is_speaking
    · rw [if_pos hp]
      obtain ⟨h1, h2, h3⟩ := hp
      constructor
      · intro _; exact ⟨h1, h2, h3⟩
      · rintro (h | h | h)
        · exact absurd h1 h
        · rw [h2] at h; cases h
        · rw [h3] at h; cases h
    · rw [if_neg hp]
      exact ⟨fun h => Bool.noConfusion h, fun _ => rfl⟩
  · rw [if_neg hen]
    exact ⟨fun h => Bool.noConfusion h, fun _ => rfl⟩

/-- Witness for C1: with every silence condition met but the assistant
speaking, listening is not paused. -/
theorem silence_monitor_pause_guard_witness :
    (silence_monitor_step ⟨true, true, true, 0, 30⟩
      (get_speech_state ⟨1, 9 / 10, 0⟩ 100) 100).is_listening = true :=
  (silence_monitor_pause_guard ⟨true, true, true, 0, 30⟩ ⟨1, 9 / 10, 0⟩ 100 rfl).2
    (Or.inr (Or.inr rfl))

/-- C2: the elapsed warm-up timer alone never sets
`silence_detection_enabled`.  With the latch unset, a warm-up period of
30 seconds and `start_time = 0`, the monitor leaves the latch false
both at 29.5 seconds (the `elapsed_time >= warm_up_period - 1` branch
is shadowed by the status branch, which fires whenever the latch is
unset during warm-up) and at 1000 seconds (past warm-up, no branch
runs), even though the speech state has been silent for 1000 seconds
with silence ratio 1; consequently listening is never paused either.
This contradicts the claim (and the startup message printed at
assistant.py line 318) that elapsed warm-up time enables silence
detection. -/
theorem warm_up_timer_never_enables :
    (silence_monitor_step ⟨false, true, false, 0, 30⟩
        (get_speech_state ⟨1, 9 / 10, 0⟩ (59 / 2)) (59 / 2)).silence_detection_enabled
        = false ∧
    (silence_monitor_step ⟨false, true, false, 0, 30⟩
        (get_speech_state ⟨1, 9 / 10, 0⟩ 1000) 1000).silence_detection_enabled
        = false ∧
    (silence_monitor_step ⟨false, true, false, 0, 30⟩
        (get_speech_state ⟨1, 9 / 10, 0⟩ 1000) 1000).is_listening = true := by
  have e1 : silence_monitor_enable ⟨false, true, false, 0, 30⟩ (59 / 2) = false := by
    unfold silence_monitor_enable
    rw [if_pos ⟨by norm_num, rfl⟩]
  have e2 : silence_monitor_enable ⟨false, true, false, 0, 30⟩ 1000 = false := by
    unfold silence_monitor_enable
    rw [if_neg (by norm_num), if_neg (by norm_num)]
  refine ⟨?_, ?_, ?_⟩
  · rw [silence_monitor_step_enabled, e1]
  · rw [silence_monitor_step_enabled, e2]
  · rw [silence_monitor_step_listening, e2]
    simp

/-- Helper for C3 and C4: the fallback loop of `recognize_worker` skips
the already-tried language, passes over languages whose attempt raises
`UnknownValueError` or returns an empty transcript, and stops at the
first language whose attempt returns a non-empty transcript, emitting
that transcript with the language detected from its text. -/
lemma fallback_scan_first_nonempty (backend : String → RecOutcome)
    (detect : String → Option String) (last_detected_language : String)
    (l t : String) (post : List String) (hl : l ≠ last_detected_language)
    (hok : backend l = RecOutcome.ok t) (ht : py_strip t ≠ "") :
    ∀ pre : List String,
      (∀ x ∈ pre, x = last_detected_language ∨
        backend x = RecOutcome.unknownValue ∨
        ∃ s, backend x = RecOutcome.ok s ∧ py_strip s = "") →
      fallback_scan backend detect last_detected_language (pre ++ l :: post) =
        some ⟨t, detect_language_from_text detect last_detected_language t⟩ := by
  intro pre
  induction pre with
  | nil =>
    intro _
    rw [List.nil_append]
    simp only [fallback_scan, if_neg hl, hok, if_pos ht]
  | cons x pre ih =>
    intro hpre
    have hrest := ih (fun y hy => hpre y (List.mem_cons_of_mem x hy))
    rw [List.cons_append]
    rcases hpre x (List.mem_cons_self x pre) with hx | hx | ⟨s, hs, hstrim⟩
    · rw [hx]
      simp only [fallback_scan, if_pos rfl]
      exact hrest
    · by_cases hxl : x = last_detected_language
      · rw [hxl]
        simp only [fallback_scan, if_pos rfl]
        exact hrest
      · simp only [fallback_scan, if_neg hxl, hx]
        exact hrest
    · by_cases hxl : x = last_detected_language
      · rw [hxl]
        simp only [fallback_scan, if_pos rfl]
        exact hrest
      · simp only [fallback_scan, if_neg hxl, hs, hstrim, ne_eq,
          not_true_eq_false, if_false]
        exact hrest

/-- Backend used for the C3 counterexample: the hinted language
transcribes to the empty string, every other language to a non-empty
word. -/
def c3x_backend : String → RecOutcome :=
  fun l => if l = "en-US" then RecOutcome.ok "" else RecOutcome.ok "hello"

/-- Text-language oracle for the C3 counterexample. -/
def c3x_detect : String → Option String := fun _ => some "en"

/-- C3 counterexample: with the hint `en-US`, the hinted attempt
succeeds with an empty transcript and every other supported language
would return the non-empty transcript `hello`, yet `recognize_worker`
emits nothing and keeps the hint: an empty (as opposed to
unrecognized) transcription does not start the fallback iteration,
contradicting the claim that it does (which would emit `hello`). -/
theorem empty_transcript_skips_fallback :
    c3x_backend "en-US" = RecOutcome.ok "" ∧
    c3x_backend "fr-FR" = RecOutcome.ok "hello" ∧
    "fr-FR" ∈ supported_languages ∧ ("fr-FR" : String) ≠ "en-US" ∧
    recognize_worker_step c3x_backend c3x_detect "en-US" = (none, "en-US") := by
  refine ⟨rfl, rfl, by decide, by decide, rfl⟩

/-- C3 amended: the fallback iteration over the supported languages
runs only when the hinted attempt raises an unrecognized-speech error
(an empty hinted transcript drops the segment instead); it skips the
hinted language and stops at the first language with a non-empty
transcript, emitting that transcript. -/
theorem recognize_fallback_on_unknown (backend : String → RecOutcome)
    (detect : String → Option String) (last_detected_language : String)
    (pre post : List String) (l t : String)
    (hsup : supported_languages = pre ++ l :: post)
    (hhint : backend last_detected_language = RecOutcome.unknownValue)
    (hpre : ∀ x ∈ pre, x = last_detected_language ∨
      backend x = RecOutcome.unknownValue ∨
      ∃ s, backend x = RecOutcome.ok s ∧ py_strip s = "")
    (hl : l ≠ last_detected_language)
    (hok : backend l = RecOutcome.ok t) (ht : py_strip t ≠ "") :
    recognize_worker_step backend detect last_detected_language =
      (some ⟨t, detect_language_from_text detect last_detected_language t⟩,
        detect_language_from_text detect last_detected_language t) := by
  have hscan := fallback_scan_first_nonempty backend detect
    last_detected_language l t post hl hok ht pre hpre
  simp only [recognize_worker_step, hhint, hsup, hscan]

/-- Backend used for the C3 witness: the hint fails with an
unrecognized-speech error and the second supported language succeeds. -/
def c3w_backend : String → RecOutcome :=
  fun l => if l = "fr-FR" then RecOutcome.ok "bonjour" else RecOutcome.unknownValue

/-- Text-language oracle for the C3 witness. -/
def c3w_detect : String → Option String := fun _ => some "fr"

/-- Witness for the amended C3 at a concrete backend. -/
theorem recognize_fallback_on_unknown_witness :
    recognize_worker_step c3w_backend c3w_detect "en-US" =
      (some ⟨"bonjour", detect_language_from_text c3w_detect "en-US" "bonjour"⟩,
        detect_language_from_text c3w_detect "en-US" "bonjour") :=
  recognize_fallback_on_unknown c3w_backend c3w_detect "en-US" ["en-US"]
    ["es-ES", "de-DE", "it-IT", "ar-AR", "zh-CN", "ja-JP"] "fr-FR" "bonjour"
    rfl rfl (fun x hx => Or.inl (List.mem_singleton.mp hx)) (by decide) rfl
    (by decide)

/-- Backend used for the C4 counterexample: hint `en-US` is not
understood, fallback `fr-FR` transcribes `bonjour`. -/
def c4x_backend : String → RecOutcome :=
  fun l => if l = "fr-FR" then RecOutcome.ok "bonjour" else RecOutcome.unknownValue

/-- Text-language oracle for the C4 counterexample: langdetect raises
on every input, so `detect_language_from_text` falls back to the
previous hint. -/
def c4x_detect : String → Option String := fun _ => none

/-- C4 counterexample: the segment fails transcription in the hinted
language `en-US` and succeeds with the fallback language `fr-FR`, yet
the emitted result carries language `en-US` — the original hint, not
the fallback language — because the `lang` field is the language
detected from the returned text, which defaults to the previous hint
when text detection fails. -/
theorem fallback_language_not_propagated :
    c4x_backend "en-US" = RecOutcome.unknownValue ∧
    c4x_backend "fr-FR" = RecOutcome.ok "bonjour" ∧
    ("en-US" : String) ≠ "fr-FR" ∧
    recognize_worker_step c4x_backend c4x_detect "en-US" =
      (some ⟨"bonjour", "en-US"⟩, "en-US") := by
  refine ⟨rfl, rfl, by decide, rfl⟩

/-- C4 amended: when the hinted attempt fails and a fallback language
produces the transcript, the emitted language field is the language
detected from the returned text through the supported-language table
(`detect_language_from_text`), with the previous hint as default when
detection fails — so it equals the fallback language exactly when the
text detection maps to that language, and can equal the original hint
otherwise. -/
theorem emitted_language_is_text_detected (backend : String → RecOutcome)
    (detect : String → Option String) (last_detected_language : String)
    (pre post : List String) (l t : String)
    (hsup : supported_languages = pre ++ l :: post)
    (hhint : backend last_detected_language = RecOutcome.unknownValue)
    (hpre : ∀ x ∈ pre, x = last_detected_language ∨
      backend x = RecOutcome.unknownValue ∨
      ∃ s, backend x = RecOutcome.ok s ∧ py_strip s = "")
    (hl : l ≠ last_detected_language)
    (hok : backend l = RecOutcome.ok t) (ht : py_strip t ≠ "") :
    (recognize_worker_step backend detect last_detected_language).1 =
      some ⟨t, detect_language_from_text detect last_detected_language t⟩ ∧
    (detect t = none →
      detect_language_from_text detect last_detected_language t =
        last_detected_language) := by
  have hscan := fallback_scan_first_nonempty backend detect
    last_detected_language l t post hl hok ht pre hpre
  constructor
  · simp only [recognize_worker_step, hhint, hsup, hscan]
  · intro hd
    simp only [detect_language_from_text, hd]

/-- Backend used for the C4 witness. -/
def c4w_backend : String → RecOutcome :=
  fun l => if l = "fr-FR" then RecOutcome.ok "bonjour" else RecOutcome.unknownValue

/-- Text-language oracle for the C4 witness: the returned text is
detected as French, which maps to the fallback language. -/
def c4w_detect : String → Option String := fun _ => some "fr"

/-- Witness for the amended C4 at a concrete backend. -/
theorem emitted_language_is_text_detected_witness :
    (recognize_worker_step c4w_backend c4w_detect "en-US").1 =
      some ⟨"bonjour", detect_language_from_text c4w_detect "en-US" "bonjour"⟩ ∧
    (c4w_detect "bonjour" = none →
      detect_language_from_text c4w_detect "en-US" "bonjour" = "en-US") :=
  emitted_language_is_text_detected c4w_backend c4w_detect "en-US" ["en-US"]
    ["es-ES", "de-DE", "it-IT", "ar-AR", "zh-CN", "ja-JP"] "fr-FR" "bonjour"
    rfl rfl (fun x hx => Or.inl (List.mem_singleton.mp hx)) (by decide) rfl
    (by decide)

/-- Device list for the C5 counterexample: a microphone-named device at
index 0 and an output-named device at index 7. -/
def c5x_names : List String :=
  ["Headset Microphone (USB Audio)", "d1", "d2", "d3", "d4", "d5", "d6",
   "Speakers (High Definition Audio Output)"]

/-- C5 counterexample: with eight devices, `find_best_microphone`
returns index 7 — a device whose name matches the output-device
keyword `output` — even though the device at index 0 matches the
`microphone` keyword.  Under the claimed name-based ranking (allow-list
substrings, then microphone/headset keywords, then first non-output
device, then index 0) index 7 could not be selected here; the code
selects it because its first stage tries the hard-coded device indices
7, 14, 24, 25, 28 by position alone. -/
theorem index_priority_overrides_names :
    find_best_microphone c5x_names = some 7 ∧
    py_in "output" (c5x_names.getD 7 "") = true ∧
    py_in "microphone" (c5x_names.getD 0 "") = true := by
  refine ⟨by decide, by decide, by decide⟩

/-- Helper: with at most seven devices, no hard-coded index is in
range. -/
lemma specific_find_none (mic_names : List String)
    (h : mic_names.length ≤ 7) :
    specific_indices.find? (fun i => decide (i < mic_names.length)) = none := by
  rw [List.find?_eq_none]
  intro x hx
  simp only [decide_eq_true_eq]
  fin_cases hx <;> omega

/-- Helper: the name-based stages return a device whenever any device
exists. -/
lemma rank_by_name_ne_none (mic_names : List String) (h : mic_names ≠ []) :
    rank_by_name mic_names ≠ none := by
  unfold rank_by_name
  cases h1 : priority_keywords.findSome?
      (fun kw => mic_names.findIdx? (fun name => py_in kw name)) with
  | some i => simp
  | none =>
    cases h2 : mic_names.findIdx?
        (fun name => !(avoid_keywords.any (fun kw => py_in kw name))) with
    | some i => simp
    | none =>
      have hempty : mic_names.isEmpty = false := by
        cases mic_names with
        | nil => exact absurd rfl h
        | cons a l => rfl
      rw [if_neg (by rw [hempty]; exact Bool.false_ne_true)]
      simp

/-- C5 amended: microphone selection first returns the first hard-coded
device index among 7, 14, 24, 25, 28 that is in range of the device
list, regardless of device names; only when the list has at most seven
devices do the name-based stages run (microphone/headset keyword
match, then first non-output device, then index 0); `none` is returned
exactly when no device exists. -/
theorem find_best_microphone_ranking (mic_names : List String) :
    (7 < mic_names.length → find_best_microphone mic_names = some 7) ∧
    (mic_names.length ≤ 7 →
      find_best_microphone mic_names = rank_by_name mic_names) ∧
    (find_best_microphone mic_names = none ↔ mic_names = []) := by
  refine ⟨?_, ?_, ?_⟩
  · intro h7
    have : specific_indices.find? (fun i => decide (i < mic_names.length)) =
        some 7 := by
      rw [specific_indices]
      exact List.find?_cons_of_pos _ (by simpa using h7)
    simp only [find_best_microphone, this]
  · intro hle
    simp only [find_best_microphone, specific_find_none mic_names hle]
  · constructor
    · intro h
      by_contra hne
      by_cases h7 : 7 < mic_names.length
      · have : specific_indices.find? (fun i => decide (i < mic_names.length)) =
            some 7 := by
          rw [specific_indices]
          exact List.find?_cons_of_pos _ (by simpa using h7)
        rw [find_best_microphone, this] at h
        cases h
      · rw [find_best_microphone,
          specific_find_none mic_names (by omega)] at h
        exact rank_by_name_ne_none mic_names hne h
    · intro h
      subst h
      rfl

/-- Witness for the amended C5: eight devices select index 7. -/
theorem find_best_microphone_ranking_witness :
    7 < c5x_names.length ∧ find_best_microphone c5x_names = some 7 :=
  ⟨by decide, (find_best_microphone_ranking c5x_names).1 (by decide)⟩

/-- C6 counterexample: three consecutive iterations in which captured
audio fails all recognition attempts — including a backend request
failure — leave `consecutive_errors` at zero and trigger no reset,
because a successful `listen` clears the counter before recognition
runs and recognition errors never increment it.  This contradicts the
claim that three consecutive backend/request failures trigger exactly
one resource reset. -/
theorem backend_failures_never_reset :
    active_listening_run 0
      [LoopEvent.listenOk true, LoopEvent.listenOk true,
        LoopEvent.listenOk true] = (0, 0) ∧
    recognize_worker_step (fun _ => RecOutcome.requestError)
      (fun _ => none) "en-US" = (none, "en-US") := by
  refine ⟨rfl, rfl⟩

/-- Helper: a capture error increments the counter. -/
lemma next_of_capture_error (n : Nat) (e : LoopEvent)
    (h : is_capture_error e = true) :
    next_consecutive_errors n e = n + 1 := by
  cases e <;> simp_all [is_capture_error, next_consecutive_errors]

/-- Helper: an iteration below the error limit does not reset. -/
lemma active_listening_iter_of_lt (n : Nat) (e : LoopEvent)
    (h : next_consecutive_errors n e < 3) :
    active_listening_iter n e = (next_consecutive_errors n e, false) := by
  unfold active_listening_iter
  rw [if_neg (by omega)]

/-- Helper: runs whose capture errors cannot reach the limit perform no
reset. -/
lemma active_listening_run_no_reset (es : List LoopEvent) :
    ∀ n : Nat, n + es.countP is_capture_error < 3 →
      (active_listening_run n es).2 = 0 := by
  induction es with
  | nil => intro n _; rfl
  | cons e es ih =>
    intro n h
    rw [List.countP_cons] at h
    have hnext : next_consecutive_errors n e + es.countP is_capture_error < 3 := by
      cases e <;> simp_all [next_consecutive_errors, is_capture_error] <;> omega
    rw [active_listening_run,
      active_listening_iter_of_lt n e (by omega)]
    simpa using ih _ hnext

/-- C6 amended: in `active_listening_loop` the reset counter counts
only capture-layer failures (listening errors, microphone source
errors, loop-body errors); three consecutive such failures trigger
exactly one resource reset with the counter cleared, fewer than three
trigger none, and an iteration whose captured audio merely fails
recognition — including a backend request failure — clears the counter,
never resets, and never stops the loop (`recognize_worker` likewise
contains its `RequestError`). -/
theorem capture_error_reset_policy (es : List LoopEvent) (n : Nat) :
    (n = 0 → es.length = 3 → (∀ e ∈ es, is_capture_error e = true) →
      active_listening_run n es = (0, 1)) ∧
    (n + es.countP is_capture_error < 3 →
      (active_listening_run n es).2 = 0) ∧
    active_listening_iter n (LoopEvent.listenOk true) = (0, false) := by
  refine ⟨?_, ?_, ?_⟩
  · intro h0 hlen hall
    subst h0
    obtain ⟨a, b, c, rfl⟩ := List.length_eq_three.mp hlen
    have na := next_of_capture_error 0 a (hall a (by simp))
    have nb := next_of_capture_error 1 b (hall b (by simp))
    have nc := next_of_capture_error 2 c (hall c (by simp))
    rw [show active_listening_run 0 [a, b, c] =
        ((active_listening_run (active_listening_iter 0 a).1 [b, c]).1,
          (if (active_listening_iter 0 a).2 then 1 else 0) +
            (active_listening_run (active_listening_iter 0 a).1 [b, c]).2)
      from rfl]
    rw [active_listening_iter_of_lt 0 a (by omega), na]
    rw [show active_listening_run 1 [b, c] =
        ((active_listening_run (active_listening_iter 1 b).1 [c]).1,
          (if (active_listening_iter 1 b).2 then 1 else 0) +
            (active_listening_run (active_listening_iter 1 b).1 [c]).2)
      from rfl]
    rw [active_listening_iter_of_lt 1 b (by omega), nb]
    rw [show active_listening_run 2 [c] =
        ((active_listening_run (active_listening_iter 2 c).1 []).1,
          (if (active_listening_iter 2 c).2 then 1 else 0) +
            (active_listening_run (active_listening_iter 2 c).1 []).2)
      from rfl]
    have hc3 : active_listening_iter 2 c = (0, true) := by
      unfold active_listening_iter
      rw [nc, if_pos (by omega)]
    rw [hc3]
    rfl
  · exact active_listening_run_no_reset es n
  · rfl

/-- Witness for the amended C6: three capture errors give one reset. -/
theorem capture_error_reset_policy_witness :
    active_listening_run 0
      [LoopEvent.listenErr, LoopEvent.sourceErr, LoopEvent.loopErr] = (0, 1) :=
  (capture_error_reset_policy
    [LoopEvent.listenErr, LoopEvent.sourceErr, LoopEvent.loopErr] 0).1
    rfl rfl (by decide)

/-- Helper: the two loops of `get_conversation_context` compute
filter-then-map. -/
lemma format_collect_eq (now window : ℚ) (l : List Turn) :
    format_context (collect_recent now window l) =
      (l.filter (fun it => decide ((now - it.timestamp) / 60 ≤ window))).map
        (fun it => (it.role, it.text)) := by
  induction l with
  | nil => rfl
  | cons it rest ih =>
    by_cases h : (now - it.timestamp) / 60 ≤ window
    · rw [collect_recent, if_pos h, format_context, ih, List.filter_cons,
        if_pos (by simpa using h), List.map_cons]
    · rw [collect_recent, if_neg h, ih, List.filter_cons,
        if_neg (by simpa using h)]

/-- C7: the conversation history is append-only and bounded.  After
every `add_to_conversation_history` call the history has at most
`max_history_items * 2` entries, the new history is a suffix of the
old history with the new entry appended (so only older entries are
pruned), with a positive bound the new entry is always the last one,
and `get_conversation_context` returns exactly the (role, text) pairs
of the entries whose age in minutes is within the context window, in
their original order. -/
theorem conversation_history_bounded (max_history_items : Nat)
    (history : List Turn) (t : Turn) (window now : ℚ) :
    (add_to_conversation_history max_history_items history t).length ≤
      max_history_items * 2 ∧
    (add_to_conversation_history max_history_items history t) <:+
      (history ++ [t]) ∧
    (1 ≤ max_history_items →
      (add_to_conversation_history max_history_items history t).getLast? =
        some t) ∧
    get_conversation_context window now history =
      (history.filter
        (fun it => decide ((now - it.timestamp) / 60 ≤ window))).map
        (fun it => (it.role, it.text)) := by
  refine ⟨?_, ?_, ?_, ?_⟩
  · unfold add_to_conversation_history
    split
    · rw [List.length_drop]
      omega
    · simp only [List.length_append, List.length_singleton] at *
      omega
  · unfold add_to_conversation_history
    split
    · exact List.drop_suffix _ _
    · exact List.suffix_refl _
  · intro hmax
    unfold add_to_conversation_history
    split
    · next hlen =>
      rw [List.drop_append_of_le_length
          (by simp only [List.length_append, List.length_singleton] at hlen ⊢; omega)]
      exact List.getLast?_append_cons _ t []
    · exact List.getLast?_append_cons _ t []
  · unfold get_conversation_context
    by_cases h : history.isEmpty
    · rw [if_pos h]
      rw [List.isEmpty_iff] at h
      subst h
      rfl
    · rw [if_neg h]
      exact format_collect_eq now window history

/-- Witness for C7: a concrete bounded add keeps the last entry. -/
theorem conversation_history_bounded_witness :
    1 ≤ 1 ∧
      (add_to_conversation_history 1 [⟨"user", "a", 0⟩, ⟨"assistant", "b", 1⟩]
        ⟨"user", "c", 2⟩).getLast? = some ⟨"user", "c", 2⟩ :=
  ⟨by decide,
    (conversation_history_bounded 1 [⟨"user", "a", 0⟩, ⟨"assistant", "b", 1⟩]
      ⟨"user", "c", 2⟩ 15 1000).2.2.1 (by decide)⟩

/-- C10: whitespace-only input never enters the utterance stream.  A
typed line that strips to the empty string is queued by the keyboard
thread exactly never (and the thread adds nothing to the conversation
history in any case), and a recognition result whose text strips to
the empty string is exactly the kind discarded by the STT processor. -/
theorem blank_input_never_queued (enabled : Bool) (line : String)
    (current_language : String) (enabled2 : Bool) (m : SttMsg) :
    ((keyboard_input_step enabled line).queued = none ↔ py_strip_empty line = true) ∧
    ((stt_processor_step current_language enabled2 (some m)).queued = none ↔
      py_strip_empty m.text = true) := by
  constructor
  · unfold keyboard_input_step
    by_cases h : py_strip_empty line = true
    · simp [h]
    · simp [h]
  · unfold stt_processor_step
    by_cases h : py_strip_empty m.text = true
    · simp [h]
    · simp [h]
